import Mathlib

/-!
Shallow embedding of the minigbm i915 backend (src/i915.c): metadata
planning (modifier selection and overrides, tiled-surface layout),
allocation-path selection and the CPU-map guard.  Helper routines of the
repository that live outside src/i915.c (the format oracle, the generic
layout helper, `drv_pick_modifier`) are modelled from the specification and
say so in their doc comments.  Machine integers are modelled as `Nat`; the
planned-buffer metadata fields are unbounded naturals, following the
specification's data model.
-/

namespace I915

/-- C macro `ALIGN(A, B) = ((A) + (B) - 1) / (B) * (B)` from the repository's
util header, on naturals. -/
def ALIGN (x a : Nat) : Nat := (x + a - 1) / a * a

/-- C macro `DIV_ROUND_UP(n, d) = (n + d - 1) / d`. -/
def DIV_ROUND_UP (n d : Nat) : Nat := (n + d - 1) / d

/-- Modelled from the spec: the system page size used by the planner
(`getpagesize()`); the spec's concrete scenarios fix `page = 4096`. -/
def getpagesize : Nat := 4096

/-! DRM format modifier tokens: `fourcc_mod_code(INTEL, v) = (1 << 56) | v`
and `DRM_FORMAT_MOD_LINEAR = 0`, as in the DRM headers the source includes. -/

def DRM_FORMAT_MOD_LINEAR : Nat := 0
def I915_FORMAT_MOD_X_TILED : Nat := 2 ^ 56 + 1
def I915_FORMAT_MOD_Y_TILED : Nat := 2 ^ 56 + 2
def I915_FORMAT_MOD_Yf_TILED : Nat := 2 ^ 56 + 3
def I915_FORMAT_MOD_Y_TILED_CCS : Nat := 2 ^ 56 + 4
def I915_FORMAT_MOD_Yf_TILED_CCS : Nat := 2 ^ 56 + 5
def I915_FORMAT_MOD_Y_TILED_GEN12_RC_CCS : Nat := 2 ^ 56 + 6
def I915_FORMAT_MOD_4_TILED : Nat := 2 ^ 56 + 9
def I915_FORMAT_MOD_4_TILED_MTL_RC_CCS : Nat := 2 ^ 56 + 13

/-! DRM pixel-format fourcc codes (`fourcc_code(a,b,c,d)`), for the formats
src/i915.c tests by name. -/

def DRM_FORMAT_R8 : Nat := 0x20203852
def DRM_FORMAT_NV12 : Nat := 0x3231564E
def DRM_FORMAT_P010 : Nat := 0x30313050
def DRM_FORMAT_P016 : Nat := 0x36313050
def DRM_FORMAT_ARGB8888 : Nat := 0x34325241
def DRM_FORMAT_ABGR8888 : Nat := 0x34324241
def DRM_FORMAT_YVU420_ANDROID : Nat := 0x37393939

/-! i915 tiling modes (`I915_TILING_*`); `I915_TILING_4` is the 4-tiled mode
tag of the repository's i915 header. -/

def I915_TILING_NONE : Nat := 0
def I915_TILING_X : Nat := 1
def I915_TILING_Y : Nat := 2
def I915_TILING_4 : Nat := 9

/-- The device descriptor `struct i915_device`, restricted to the fields the
embedded operations read. -/
structure I915Device where
  graphics_version : Nat
  sub_version : Nat
  is_xelpd : Bool
  has_mmap_offset : Bool
  has_local_mem : Bool
  force_mem_local : Bool
  vram_size : Nat
  deriving DecidableEq

/-- `GEN_VERSION_X10(dev) = graphics_version * 10 + sub_version`. -/
def GEN_VERSION_X10 (dev : I915Device) : Nat :=
  dev.graphics_version * 10 + dev.sub_version

/-- `i915_has_tile4`: `GEN_VERSION_X10 >= 125`. -/
def i915_has_tile4 (dev : I915Device) : Bool :=
  125 ≤ GEN_VERSION_X10 dev

/-- `gen_modifier_order` (generations below 11). -/
def gen_modifier_order : List Nat :=
  [I915_FORMAT_MOD_Y_TILED_CCS, I915_FORMAT_MOD_Y_TILED,
   I915_FORMAT_MOD_X_TILED, DRM_FORMAT_MOD_LINEAR]

/-- `gen12_modifier_order`. -/
def gen12_modifier_order : List Nat :=
  [I915_FORMAT_MOD_Y_TILED_GEN12_RC_CCS, I915_FORMAT_MOD_Y_TILED,
   I915_FORMAT_MOD_X_TILED, DRM_FORMAT_MOD_LINEAR]

/-- `gen11_modifier_order`. -/
def gen11_modifier_order : List Nat :=
  [I915_FORMAT_MOD_Y_TILED, I915_FORMAT_MOD_X_TILED, DRM_FORMAT_MOD_LINEAR]

/-- `xe_lpdp_modifier_order` (`GEN_VERSION_X10 >= 125`). -/
def xe_lpdp_modifier_order : List Nat :=
  [I915_FORMAT_MOD_4_TILED_MTL_RC_CCS, I915_FORMAT_MOD_4_TILED,
   I915_FORMAT_MOD_X_TILED, DRM_FORMAT_MOD_LINEAR]

/-- `i915_get_modifier_order`: the generation preference list. -/
def i915_get_modifier_order (dev : I915Device) : List Nat :=
  if i915_has_tile4 dev then xe_lpdp_modifier_order
  else if dev.graphics_version = 12 then gen12_modifier_order
  else if dev.graphics_version = 11 then gen11_modifier_order
  else gen_modifier_order

/-- The host format oracle the planner consults per plane: default plane
count, default stride, default plane height (external collaborators of the
core; see `drvOracle` for the modelled instance). -/
structure FormatOracle where
  num_planes : Nat → Nat
  stride : Nat → Nat → Nat → Nat
  height : Nat → Nat → Nat → Nat

/-- Modelled from the spec: `drv_num_planes_from_format`, the host format
oracle's default plane count (NV12/P010/P016 have two planes, the Android
YVU 4:2:0 shadow format three, the rest of the formats named by the backend
one). -/
def drv_num_planes_from_format (format : Nat) : Nat :=
  if format = DRM_FORMAT_NV12 ∨ format = DRM_FORMAT_P010 ∨ format = DRM_FORMAT_P016 then 2
  else if format = DRM_FORMAT_YVU420_ANDROID then 3
  else 1

/-- Modelled from the spec: `drv_stride_from_format`, the host format
oracle's default plane stride in bytes (ARGB8888/ABGR8888 are 4 bytes per
pixel, R8 and the 4:2:0 luma planes 1 byte, NV12 chroma pairs width bytes,
P010/P016 2 bytes per sample; per the spec's concrete scenarios). -/
def drv_stride_from_format (format width plane : Nat) : Nat :=
  if format = DRM_FORMAT_ARGB8888 ∨ format = DRM_FORMAT_ABGR8888 then width * 4
  else if format = DRM_FORMAT_P010 ∨ format = DRM_FORMAT_P016 then width * 2
  else if format = DRM_FORMAT_YVU420_ANDROID ∧ 1 ≤ plane then DIV_ROUND_UP width 2
  else width

/-- Modelled from the spec: `drv_height_from_format`, the host format
oracle's default plane height (the chroma planes of the 4:2:0 formats are
vertically subsampled by two). -/
def drv_height_from_format (format height plane : Nat) : Nat :=
  if (format = DRM_FORMAT_NV12 ∨ format = DRM_FORMAT_P010 ∨ format = DRM_FORMAT_P016)
      ∧ plane = 1 then
    DIV_ROUND_UP height 2
  else if format = DRM_FORMAT_YVU420_ANDROID ∧ 1 ≤ plane then DIV_ROUND_UP height 2
  else height

/-- The modelled host format oracle. -/
def drvOracle : FormatOracle :=
  { num_planes := drv_num_planes_from_format,
    stride := drv_stride_from_format,
    height := drv_height_from_format }

/-- A planning failure: `-EINVAL` from the planner, or a failed `assert`. -/
inductive PlanError where
  | invalidArgument
  | assertFailed
  deriving DecidableEq

/-- The planned buffer metadata the planner fills in (`bo->meta`), with the
per-plane arrays as lists indexed by plane. -/
structure BoMeta where
  tiling : Nat
  format_modifier : Nat
  num_planes : Nat
  strides : List Nat
  offsets : List Nat
  sizes : List Nat
  total_size : Nat
  deriving DecidableEq

/-- Modelled from the spec: `drv_pick_modifier`, the host helper that
intersects the client-supplied candidate list with the generation preference
list and yields the modifier ranked highest in the generation list, or
nothing when the lists are disjoint. -/
def drv_pick_modifier (modifiers order : List Nat) : Option Nat :=
  order.find? (fun m => decide (m ∈ modifiers))

/-- Step 1 of `i915_bo_compute_metadata`: modifier selection.  With a client
list, pick from the intersection (failure on a disjoint list is an
invalid-argument condition, modelled from the spec); without one, take the
registry combination's modifier (`combo`, the result of the host's
`drv_get_combination` lookup, `none` when no combination matches). -/
def i915_select_modifier (dev : I915Device) (modifiers : Option (List Nat))
    (combo : Option Nat) : Except PlanError Nat :=
  match modifiers with
  | some ms =>
    match drv_pick_modifier ms (i915_get_modifier_order dev) with
    | some m => .ok m
    | none => .error .invalidArgument
  | none =>
    match combo with
    | some m => .ok m
    | none => .error .invalidArgument

/-- The huge-bo override of `i915_bo_compute_metadata`: on
`graphics_version < 11` with `width > 4096`, for formats other than NV12 and
P010, a modifier that is neither X-tiled nor linear is demoted to X-tiled
when the client list contains X-tiled and to linear otherwise; the search
loop runs only when a client list was supplied (`modifiers && i < count`),
so with no client list the demotion is always to linear. -/
def i915_huge_bo_override (dev : I915Device) (width format : Nat)
    (modifiers : Option (List Nat)) (modifier : Nat) : Nat :=
  if dev.graphics_version < 11 ∧ 4096 < width
      ∧ format ≠ DRM_FORMAT_NV12 ∧ format ≠ DRM_FORMAT_P010
      ∧ modifier ≠ I915_FORMAT_MOD_X_TILED ∧ modifier ≠ DRM_FORMAT_MOD_LINEAR then
    match modifiers with
    | some ms =>
      if I915_FORMAT_MOD_X_TILED ∈ ms then I915_FORMAT_MOD_X_TILED
      else DRM_FORMAT_MOD_LINEAR
    | none => DRM_FORMAT_MOD_LINEAR
  else modifier

/-- The compression override of `i915_bo_compute_metadata`: with compression
disabled, `Y_TILED_CCS` is demoted to Y-tiled when the client list contains
Y-tiled and to linear otherwise (again the search loop runs only when a
client list was supplied). -/
def i915_compression_override (compression : Bool) (modifiers : Option (List Nat))
    (modifier : Nat) : Nat :=
  if compression = false ∧ modifier = I915_FORMAT_MOD_Y_TILED_CCS then
    match modifiers with
    | some ms =>
      if I915_FORMAT_MOD_Y_TILED ∈ ms then I915_FORMAT_MOD_Y_TILED
      else DRM_FORMAT_MOD_LINEAR
    | none => DRM_FORMAT_MOD_LINEAR
  else modifier

/-- The legacy override of `i915_bo_compute_metadata`: `graphics_version <= 8`
with ARGB8888 forces linear. -/
def i915_gen8_argb_override (dev : I915Device) (format modifier : Nat) : Nat :=
  if dev.graphics_version ≤ 8 ∧ format = DRM_FORMAT_ARGB8888 then
    DRM_FORMAT_MOD_LINEAR
  else modifier

/-- The modifier-to-tiling switch of `i915_bo_compute_metadata`.  A modifier
outside the enumeration leaves `bo->meta.tiling` at its zero initialisation,
`I915_TILING_NONE`. -/
def i915_tiling_from_modifier (modifier : Nat) : Nat :=
  if modifier = DRM_FORMAT_MOD_LINEAR then I915_TILING_NONE
  else if modifier = I915_FORMAT_MOD_X_TILED then I915_TILING_X
  else if modifier = I915_FORMAT_MOD_Y_TILED ∨ modifier = I915_FORMAT_MOD_Y_TILED_CCS
      ∨ modifier = I915_FORMAT_MOD_Yf_TILED ∨ modifier = I915_FORMAT_MOD_Yf_TILED_CCS
      ∨ modifier = I915_FORMAT_MOD_Y_TILED_GEN12_RC_CCS then I915_TILING_Y
  else if modifier = I915_FORMAT_MOD_4_TILED ∨ modifier = I915_FORMAT_MOD_4_TILED_MTL_RC_CCS then
    I915_TILING_4
  else I915_TILING_NONE

/-- `i915_format_needs_LCU_alignment`: NV12/P010/P016 plane 1 on graphics
version 11 or 12. -/
def i915_format_needs_LCU_alignment (dev : I915Device) (format plane : Nat) : Bool :=
  (format = DRM_FORMAT_NV12 ∨ format = DRM_FORMAT_P010 ∨ format = DRM_FORMAT_P016)
    ∧ (dev.graphics_version = 11 ∨ dev.graphics_version = 12) ∧ plane = 1

/-- `i915_align_dimensions`: returns the aligned (stride, plane height).
The `GEN_VERSION_X10 >= 125` assignment of 4x4 precedes the tiling switch,
whose NONE/X/Y/TILE4 cases each assign both alignments again; linear builds
without `LINEAR_ALIGN_256` use horizontal 64, and R8 with height 1 uses
vertical 1.  The stride is never aligned for R8. -/
def i915_align_dimensions (dev : I915Device) (format tiling stride aligned_height : Nat) :
    Nat × Nat :=
  let base : Nat × Nat := if 125 ≤ GEN_VERSION_X10 dev then (4, 4) else (64, 4)
  let alignment : Nat × Nat :=
    if tiling = I915_TILING_NONE then
      (64, if format = DRM_FORMAT_R8 ∧ aligned_height = 1 then 1 else 4)
    else if tiling = I915_TILING_X then (512, 8)
    else if tiling = I915_TILING_Y then (128, 32)
    else if tiling = I915_TILING_4 then (128, 32)
    else base
  (if format ≠ DRM_FORMAT_R8 then ALIGN stride alignment.1 else stride,
   ALIGN aligned_height alignment.2)

/-- The per-plane loop of `i915_bo_from_format`: the `assert` that a
non-linear plane's offset is page-aligned is modelled as a planning failure.
Arguments after the oracle: remaining plane count, current plane index,
current offset; result: (strides, offsets, sizes, final offset). -/
def i915_plane_loop (dev : I915Device) (o : FormatOracle) (width height format tiling : Nat) :
    Nat → Nat → Nat → Except PlanError (List Nat × List Nat × List Nat × Nat)
  | 0, _plane, offset => .ok ([], [], [], offset)
  | fuel + 1, plane, offset =>
    if tiling ≠ I915_TILING_NONE ∧ offset % getpagesize ≠ 0 then
      .error .assertFailed
    else
      let stride0 := o.stride format width plane
      let height0 := o.height format height plane
      let ah := i915_align_dimensions dev format tiling stride0 height0
      let plane_height :=
        if i915_format_needs_LCU_alignment dev format plane then ALIGN ah.2 64 else ah.2
      let size := ah.1 * plane_height
      match i915_plane_loop dev o width height format tiling fuel (plane + 1) (offset + size) with
      | .ok (ss, os, zs, endoff) => .ok (ah.1 :: ss, offset :: os, size :: zs, endoff)
      | .error e => .error e

/-- `i915_bo_from_format` (layout case for plain modifiers): per-plane
strides, offsets and sizes, and the page-aligned total size as the last
component. -/
def i915_bo_from_format (dev : I915Device) (o : FormatOracle)
    (width height format tiling : Nat) :
    Except PlanError (List Nat × List Nat × List Nat × Nat) :=
  match i915_plane_loop dev o width height format tiling (o.num_planes format) 0 0 with
  | .ok (ss, os, zs, endoff) => .ok (ss, os, zs, ALIGN endoff getpagesize)
  | .error e => .error e

/-- `i915_num_planes_from_modifier`: the CCS modifiers assert the format's
default plane count is one (a failed assert is `none`) and report two
planes; every other modifier reports the default count. -/
def i915_num_planes_from_modifier (o : FormatOracle) (format modifier : Nat) : Option Nat :=
  let num_planes := o.num_planes format
  if modifier = I915_FORMAT_MOD_Y_TILED_CCS
      ∨ modifier = I915_FORMAT_MOD_Y_TILED_GEN12_RC_CCS
      ∨ modifier = I915_FORMAT_MOD_4_TILED_MTL_RC_CCS then
    if num_planes = 1 then some 2 else none
  else some num_planes

/-- The helper loop of the modelled `drv_bo_from_format`: consecutive planes
from the given stride and height functions. -/
def drv_layout_planes (strideOf heightOf : Nat → Nat) :
    Nat → Nat → Nat → List Nat × List Nat × List Nat × Nat
  | 0, _plane, offset => ([], [], [], offset)
  | fuel + 1, plane, offset =>
    let s := strideOf plane
    let hgt := heightOf plane
    let size := s * hgt
    let r := drv_layout_planes strideOf heightOf fuel (plane + 1) (offset + size)
    (s :: r.1, offset :: r.2.1, size :: r.2.2.1, r.2.2.2)

/-- Modelled from the spec: `drv_bo_from_format`, the host's generic
format-to-layout helper the planner defers to for the Android YVU 4:2:0
shadow format: plane 0 keeps the supplied stride, the chroma planes use
`ALIGN(stride / 2, 16)`; planes are laid out consecutively and the total is
page-aligned. -/
def drv_bo_from_format (o : FormatOracle) (stride height format : Nat) :
    List Nat × List Nat × List Nat × Nat :=
  let r := drv_layout_planes
    (fun p => if p = 0 then stride else ALIGN (stride / 2) 16)
    (fun p => o.height format height p)
    (o.num_planes format) 0 0
  (r.1, r.2.1, r.2.2.1, ALIGN r.2.2.2 getpagesize)

/-- The next power of two of a stride above 1:
`1 << (32 - __builtin_clz(stride - 1))`. -/
def next_pow2_u32 (stride : Nat) : Nat := 2 ^ (Nat.log2 (stride - 1) + 1)

/-- The layout dispatch of `i915_bo_compute_metadata`, after the modifier and
tiling have been fixed: the Android YVU 4:2:0 shadow format goes to the
host's generic helper with a 32-aligned stride (the tiling set by the
modifier switch is kept — the branch does not reset it), the three
compressed modifiers get their two-plane main+aux layouts, and everything
else goes through `i915_bo_from_format`. -/
def i915_layout (dev : I915Device) (o : FormatOracle) (width height format modifier tiling : Nat) :
    Except PlanError BoMeta :=
  if format = DRM_FORMAT_YVU420_ANDROID then
    let stride := ALIGN width 32
    let r := drv_bo_from_format o stride height format
    .ok { tiling := tiling, format_modifier := modifier,
          num_planes := o.num_planes format,
          strides := r.1, offsets := r.2.1, sizes := r.2.2.1, total_size := r.2.2.2 }
  else if modifier = I915_FORMAT_MOD_Y_TILED_CCS then
    let stride := o.stride format width 0
    let width_in_tiles := DIV_ROUND_UP stride 128
    let height_in_tiles := DIV_ROUND_UP height 32
    let size := width_in_tiles * height_in_tiles * 4096
    let ccs_width_in_tiles := DIV_ROUND_UP width_in_tiles 32
    let ccs_height_in_tiles := DIV_ROUND_UP height_in_tiles 16
    let ccs_size := ccs_width_in_tiles * ccs_height_in_tiles * 4096
    match i915_num_planes_from_modifier o format modifier with
    | none => .error .assertFailed
    | some np =>
      .ok { tiling := tiling, format_modifier := modifier, num_planes := np,
            strides := [width_in_tiles * 128, ccs_width_in_tiles * 128],
            offsets := [0, size], sizes := [size, ccs_size],
            total_size := size + ccs_size }
  else if modifier = I915_FORMAT_MOD_Y_TILED_GEN12_RC_CCS then
    let stride0 := ALIGN (o.stride format width 0) 512
    let h0 := ALIGN (o.height format height 0) 32
    let stride := if dev.is_xelpd ∧ 1 < stride0 then next_pow2_u32 stride0 else stride0
    let h1 :=
      if dev.is_xelpd ∧ 1 < stride0 then ALIGN (o.height format h0 0) 128 else h0
    let size0 := ALIGN (stride * h1) 65536
    let size1 := ALIGN (size0 / 256) getpagesize
    match i915_num_planes_from_modifier o format modifier with
    | none => .error .assertFailed
    | some np =>
      .ok { tiling := tiling, format_modifier := modifier, num_planes := np,
            strides := [stride, stride / 8], offsets := [0, size0],
            sizes := [size0, size1], total_size := size0 + size1 }
  else if modifier = I915_FORMAT_MOD_4_TILED_MTL_RC_CCS then
    let stride1 := ALIGN (o.stride format width 0) 512
    let stride := ALIGN stride1 256
    let h1 := ALIGN (o.height format height 0) 32
    let size0 := ALIGN (stride * h1) 65536
    let size1 := ALIGN (size0 / 256) getpagesize
    .ok { tiling := tiling, format_modifier := modifier, num_planes := 2,
          strides := [stride, stride / 8], offsets := [0, size0],
          sizes := [size0, size1], total_size := size0 + size1 }
  else
    match i915_bo_from_format dev o width height format tiling with
    | .ok (ss, os, zs, total) =>
      .ok { tiling := tiling, format_modifier := modifier,
            num_planes := o.num_planes format,
            strides := ss, offsets := os, sizes := zs, total_size := total }
    | .error e => .error e

/-- The buffer-usage flags the embedded operations test, as booleans
(modelled from the spec's use-flag bitmask). -/
structure UseFlags where
  sw_read_often : Bool
  sw_read_rarely : Bool
  sw_write_often : Bool
  sw_write_rarely : Bool
  scanout : Bool
  renderscript : Bool
  camera_read : Bool
  camera_write : Bool
  deriving DecidableEq

/-- `i915_bo_compute_metadata`: select the modifier, apply the huge-bo,
compression-disabled and gen8-ARGB overrides in source order, derive the
tiling, and lay the buffer out.  `compression` is the host registry's
compression flag (`bo->drv->compression`); `combo` the registry lookup
result for the no-client-list path. -/
def i915_bo_compute_metadata (dev : I915Device) (compression : Bool) (o : FormatOracle)
    (width height format : Nat) (_use_flags : UseFlags)
    (modifiers : Option (List Nat)) (combo : Option Nat) : Except PlanError BoMeta :=
  match i915_select_modifier dev modifiers combo with
  | .error e => .error e
  | .ok m0 =>
    let modifier :=
      i915_gen8_argb_override dev format
        (i915_compression_override compression modifiers
          (i915_huge_bo_override dev width format modifiers m0))
    i915_layout dev o width height format modifier (i915_tiling_from_modifier modifier)

/-- `is_need_local`: the buffer wants device-local placement exactly when no
software read/write flag is set (the `static` local is overwritten on every
call, so the function is a pure predicate). -/
def is_need_local (f : UseFlags) : Bool :=
  !(f.sw_read_rarely || f.sw_read_often || f.sw_write_rarely || f.sw_write_often)

/-- `enum iris_heap`. -/
inductive IrisHeap where
  | system_memory
  | device_local
  | device_local_preferred
  deriving DecidableEq

/-- `flags_to_heap`: device-local-preferred when vram was probed, system
memory otherwise. -/
def flags_to_heap (dev : I915Device) : IrisHeap :=
  if 0 < dev.vram_size then .device_local_preferred else .system_memory

/-- A kernel memory region tag. -/
inductive MemRegion where
  | vram
  | sys
  deriving DecidableEq

/-- The creation ioctl `i915_bo_create_from_metadata` issues: the upstream
create-extension (with its region list and NEEDS_CPU_ACCESS flag), the
prelim create-extension, or the plain create. -/
inductive AllocPath where
  | gem_create_ext (size : Nat) (regions : List MemRegion) (needs_cpu_access : Bool)
  | prelim_gem_create_ext (size : Nat) (regions : List MemRegion)
  | gem_create (size : Nat)
  deriving DecidableEq

/-- The allocation-path selection of `i915_bo_create_from_metadata`: the
extension paths (size 64KiB-aligned) run only when the buffer wants local
memory and the device has it; otherwise the plain create ioctl runs with the
exact total size. -/
def i915_bo_create_path (dev : I915Device) (is_prelim : Bool) (f : UseFlags)
    (total_size : Nat) : AllocPath :=
  if is_need_local f && dev.has_local_mem then
    if !is_prelim then
      let heap := flags_to_heap dev
      let regions : List MemRegion :=
        match heap with
        | .device_local_preferred => [.vram, .sys]
        | .device_local => [.vram]
        | .system_memory => [.sys]
      .gem_create_ext (ALIGN total_size 65536) regions
        (decide (heap = IrisHeap.device_local_preferred))
    else
      .prelim_gem_create_ext (ALIGN total_size 65536)
        (if dev.force_mem_local then [MemRegion.vram, MemRegion.sys] else [MemRegion.sys])
  else
    .gem_create total_size

/-! CPU mapping (`i915_bo_map`) up to its first kernel transaction. -/

def I915_MMAP_OFFSET_WC : Nat := 1
def I915_MMAP_OFFSET_WB : Nat := 2
def I915_MMAP_OFFSET_FIXED : Nat := 4

/-- The mapping routes `i915_bo_map` can take after its modifier guard. -/
inductive MapPath where
  | mmap_offset (flags : Nat)
  | legacy_mmap (wc : Bool)
  | gtt_mmap
  deriving DecidableEq

/-- The write-combined heuristic of `i915_bo_map`: scanout without
renderscript, camera or frequent software reads. -/
def i915_mmap_wc (f : UseFlags) : Bool :=
  f.scanout && !(f.renderscript || f.camera_read || f.camera_write || f.sw_read_often)

/-- The pre-ioctl decision of `i915_bo_map`: the modifier guard returns the
mapping-failure sentinel (`none`) for `Y_TILED_CCS`, `Y_TILED_GEN12_RC_CCS`
and `4_TILED_MTL_RC_CCS` before any mapping is attempted; otherwise the
route is mmap-offset (FIXED on local-memory devices, else WC/WB by the
heuristic), the legacy mmap for linear buffers, or the GTT path. -/
def i915_bo_map_path (dev : I915Device) (format_modifier tiling : Nat) (f : UseFlags) :
    Option MapPath :=
  if format_modifier = I915_FORMAT_MOD_Y_TILED_CCS
      ∨ format_modifier = I915_FORMAT_MOD_Y_TILED_GEN12_RC_CCS
      ∨ format_modifier = I915_FORMAT_MOD_4_TILED_MTL_RC_CCS then
    none
  else if dev.has_mmap_offset then
    some (.mmap_offset
      (if dev.has_local_mem then I915_MMAP_OFFSET_FIXED
       else if i915_mmap_wc f then I915_MMAP_OFFSET_WC else I915_MMAP_OFFSET_WB))
  else if tiling = I915_TILING_NONE then
    some (.legacy_mmap (i915_mmap_wc f))
  else
    some .gtt_mmap

/-! ## Concrete devices and flags used by the witnesses and counterexamples -/

/-- A gen9 integrated device (graphics version 9.0). -/
def dev9ex : I915Device :=
  { graphics_version := 9, sub_version := 0, is_xelpd := false, has_mmap_offset := true,
    has_local_mem := false, force_mem_local := false, vram_size := 0 }

/-- A gen12 integrated device (graphics version 12.0). -/
def dev12ex : I915Device :=
  { graphics_version := 12, sub_version := 0, is_xelpd := false, has_mmap_offset := true,
    has_local_mem := false, force_mem_local := false, vram_size := 0 }

/-- A device with `GEN_VERSION_X10 = 125` (graphics version 12.5). -/
def dev125ex : I915Device :=
  { graphics_version := 12, sub_version := 5, is_xelpd := false, has_mmap_offset := true,
    has_local_mem := false, force_mem_local := false, vram_size := 0 }

/-- A discrete device with local memory. -/
def devLocalEx : I915Device :=
  { graphics_version := 12, sub_version := 5, is_xelpd := false, has_mmap_offset := true,
    has_local_mem := true, force_mem_local := true, vram_size := 8192 }

/-- No usage flags set. -/
def useFlagsNone : UseFlags :=
  { sw_read_often := false, sw_read_rarely := false, sw_write_often := false,
    sw_write_rarely := false, scanout := false, renderscript := false,
    camera_read := false, camera_write := false }

/-- Frequent software reads requested. -/
def useFlagsSwRead : UseFlags :=
  { sw_read_often := true, sw_read_rarely := false, sw_write_often := false,
    sw_write_rarely := false, scanout := false, renderscript := false,
    camera_read := false, camera_write := false }

/-- The X-tiled gen12 ARGB8888 64x64 plan (witness data for the layout
invariants). -/
def planXEx : BoMeta :=
  { tiling := I915_TILING_X, format_modifier := I915_FORMAT_MOD_X_TILED, num_planes := 1,
    strides := [512], offsets := [0], sizes := [32768], total_size := 32768 }

/-- The linear gen12 ARGB8888 64x64 plan computed with compression disabled. -/
def planLinearEx : BoMeta :=
  { tiling := I915_TILING_NONE, format_modifier := DRM_FORMAT_MOD_LINEAR, num_planes := 1,
    strides := [256], offsets := [0], sizes := [16384], total_size := 16384 }

/-- The Y-tiled-CCS gen9 ARGB8888 64x64 plan. -/
def planCcsEx : BoMeta :=
  { tiling := I915_TILING_Y, format_modifier := I915_FORMAT_MOD_Y_TILED_CCS, num_planes := 2,
    strides := [256, 128], offsets := [0, 16384], sizes := [16384, 4096], total_size := 20480 }

/-! ## Arithmetic and list helper lemmas -/

theorem ALIGN_le (x a : Nat) (ha : 0 < a) : x ≤ ALIGN x a := by
  unfold ALIGN
  have h1 : (x + a - 1) % a < a := Nat.mod_lt _ ha
  have h2 : (x + a - 1) % a + a * ((x + a - 1) / a) = x + a - 1 := Nat.mod_add_div _ _
  have h3 : (x + a - 1) / a * a = a * ((x + a - 1) / a) := Nat.mul_comm _ _
  omega

theorem ALIGN_page_mod (x : Nat) : ALIGN x getpagesize % 4096 = 0 := by
  unfold ALIGN getpagesize
  omega

theorem ALIGN_65536_mod_4096 (x : Nat) : ALIGN x 65536 % 4096 = 0 := by
  unfold ALIGN
  omega

theorem list_find_first {p : Nat → Bool} :
    ∀ (l : List Nat) (m : Nat), l.find? p = some m →
      p m = true ∧ ∃ pre post, l = pre ++ m :: post ∧ ∀ x ∈ pre, p x = false := by
  intro l
  induction l with
  | nil => intro m hm; simp [List.find?] at hm
  | cons a t ih =>
    intro m hm
    by_cases hp : p a
    · simp [List.find?, hp] at hm
      subst hm
      exact ⟨hp, [], t, rfl, by simp⟩
    · simp only [List.find?, Bool.not_eq_true] at hm
      rw [Bool.not_eq_true] at hp
      rw [hp] at hm
      obtain ⟨h1, pre, post, h2, h3⟩ := ih m hm
      refine ⟨h1, a :: pre, post, by simp [h2], ?_⟩
      intro x hx
      rcases List.mem_cons.mp hx with h | h
      · subst h; exact hp
      · exact h3 x h

theorem list_find_none {p : Nat → Bool} :
    ∀ (l : List Nat), (∀ x ∈ l, p x = false) → l.find? p = none := by
  intro l
  induction l with
  | nil => intro _; rfl
  | cons a t ih =>
    intro h
    have ha : p a = false := h a (by simp)
    simp only [List.find?, ha]
    exact ih fun x hx => h x (by simp [hx])

/-- The plane loop's invariants: the final offset is the start offset plus
the emitted sizes, and (via the modelled `assert`) every emitted offset of a
non-linear layout is page-aligned. -/
theorem i915_plane_loop_invariant (dev : I915Device) (o : FormatOracle)
    (width height format tiling : Nat) :
    ∀ (fuel plane offset : Nat) (ss os zs : List Nat) (endoff : Nat),
      i915_plane_loop dev o width height format tiling fuel plane offset =
        .ok (ss, os, zs, endoff) →
      endoff = offset + zs.sum ∧
        (tiling ≠ I915_TILING_NONE → ∀ x ∈ os, x % getpagesize = 0) := by
  intro fuel
  induction fuel with
  | zero =>
    intro plane offset ss os zs endoff h
    simp only [i915_plane_loop, Except.ok.injEq, Prod.mk.injEq] at h
    obtain ⟨h1, h2, h3, h4⟩ := h
    subst h1; subst h2; subst h3; subst h4
    simp
  | succ n ih =>
    intro plane offset ss os zs endoff h
    simp only [i915_plane_loop] at h
    split at h
    · exact absurd h (by simp)
    · rename_i hguard
      split at h
      · rename_i ss' os' zs' endoff' heq
        simp only [Except.ok.injEq, Prod.mk.injEq] at h
        obtain ⟨h1, h2, h3, h4⟩ := h
        subst h1; subst h2; subst h3; subst h4
        obtain ⟨ih1, ih2⟩ := ih _ _ _ _ _ _ heq
        constructor
        · simp only [List.sum_cons]
          omega
        · intro hne x hx
          rcases List.mem_cons.mp hx with hx | hx
          · subst hx
            rcases not_and_or.mp hguard with hc | hc
            · exact absurd hne (by simpa using hc)
            · simpa using hc
          · exact ih2 hne x hx
      · exact absurd h (by simp)

/-- The modelled generic layout loop lays planes consecutively: its final
offset is the start offset plus the emitted sizes. -/
theorem drv_layout_planes_sum (strideOf heightOf : Nat → Nat) :
    ∀ (fuel plane offset : Nat),
      (drv_layout_planes strideOf heightOf fuel plane offset).2.2.2 =
        offset + (drv_layout_planes strideOf heightOf fuel plane offset).2.2.1.sum := by
  intro fuel
  induction fuel with
  | zero => intro plane offset; simp [drv_layout_planes]
  | succ n ih =>
    intro plane offset
    simp only [drv_layout_planes, List.sum_cons]
    rw [ih]
    omega

/-- Every successful layout result carries the modifier it was given. -/
theorem i915_layout_modifier (dev : I915Device) (o : FormatOracle)
    (width height format modifier tiling : Nat) (meta : BoMeta) :
    i915_layout dev o width height format modifier tiling = .ok meta →
    meta.format_modifier = modifier := by
  intro h
  unfold i915_layout at h
  split at h
  · cases h; rfl
  · split at h
    · split at h
      · exact absurd h (by simp)
      · cases h; rfl
    · split at h
      · split at h
        · exact absurd h (by simp)
        · cases h; rfl
      · split at h
        · cases h; rfl
        · split at h
          · rename_i r heq
            cases h; rfl
          · exact absurd h (by simp)

/-- The total of the modelled generic helper is the page-aligned sum of its
plane sizes. -/
theorem drv_bo_from_format_total (o : FormatOracle) (stride height format : Nat) :
    (drv_bo_from_format o stride height format).2.2.2 =
      ALIGN (drv_bo_from_format o stride height format).2.2.1.sum getpagesize := by
  unfold drv_bo_from_format
  simp only
  rw [drv_layout_planes_sum]
  simp

/-- Every successful layout satisfies the planner's size invariants: the
total size is a page multiple at least the sum of the plane sizes; and
outside the Android YVU shadow format (whose branch bypasses the per-plane
assert while keeping the modifier-derived tiling) a non-linear layout's
offsets are page-aligned. -/
theorem i915_layout_invariants (dev : I915Device) (o : FormatOracle)
    (width height format modifier tiling : Nat) (meta : BoMeta) :
    i915_layout dev o width height format modifier tiling = .ok meta →
    meta.total_size % getpagesize = 0 ∧ meta.sizes.sum ≤ meta.total_size ∧
      (format ≠ DRM_FORMAT_YVU420_ANDROID → meta.tiling ≠ I915_TILING_NONE →
        ∀ x ∈ meta.offsets, x % getpagesize = 0) := by
  intro h
  unfold i915_layout at h
  split at h
  · -- Android YVU 4:2:0 shadow format: the modelled generic helper
    rename_i hyvu
    cases h
    refine ⟨?_, ?_, ?_⟩
    · show (drv_bo_from_format o (ALIGN width 32) height format).2.2.2 % getpagesize = 0
      rw [drv_bo_from_format_total]
      exact ALIGN_page_mod _
    · show (drv_bo_from_format o (ALIGN width 32) height format).2.2.1.sum ≤
        (drv_bo_from_format o (ALIGN width 32) height format).2.2.2
      rw [drv_bo_from_format_total]
      exact ALIGN_le _ _ (by decide)
    · intro hfmt _
      exact absurd hyvu hfmt
  · split at h
    · -- Y_TILED_CCS
      split at h
      · exact absurd h (by simp)
      · cases h
        refine ⟨?_, ?_, ?_⟩
        · have e1 := Nat.mul_mod_left
            (DIV_ROUND_UP (o.stride format width 0) 128 * DIV_ROUND_UP height 32) 4096
          have e2 := Nat.mul_mod_left
            (DIV_ROUND_UP (DIV_ROUND_UP (o.stride format width 0) 128) 32 *
              DIV_ROUND_UP (DIV_ROUND_UP height 32) 16) 4096
          show (_ + _) % getpagesize = 0
          unfold getpagesize
          omega
        · simp
        · intro _ _ x hx
          rcases List.mem_cons.mp hx with hx | hx
          · subst hx; simp
          · have hx2 : x = DIV_ROUND_UP (o.stride format width 0) 128 *
                DIV_ROUND_UP height 32 * 4096 := by simpa using hx
            subst hx2
            exact Nat.mul_mod_left _ _
    · split at h
      · -- Y_TILED_GEN12_RC_CCS
        split at h
        · exact absurd h (by simp)
        · cases h
          refine ⟨?_, ?_, ?_⟩
          · have e1 := ALIGN_65536_mod_4096
              ((if dev.is_xelpd = true ∧ 1 < ALIGN (o.stride format width 0) 512 then
                  next_pow2_u32 (ALIGN (o.stride format width 0) 512)
                else ALIGN (o.stride format width 0) 512) *
               (if dev.is_xelpd = true ∧ 1 < ALIGN (o.stride format width 0) 512 then
                  ALIGN (o.height format (ALIGN (o.height format height 0) 32) 0) 128
                else ALIGN (o.height format height 0) 32))
            have e2 := ALIGN_page_mod
              (ALIGN ((if dev.is_xelpd = true ∧ 1 < ALIGN (o.stride format width 0) 512 then
                  next_pow2_u32 (ALIGN (o.stride format width 0) 512)
                else ALIGN (o.stride format width 0) 512) *
               (if dev.is_xelpd = true ∧ 1 < ALIGN (o.stride format width 0) 512 then
                  ALIGN (o.height format (ALIGN (o.height format height 0) 32) 0) 128
                else ALIGN (o.height format height 0) 32)) 65536 / 256)
            show (_ + _) % getpagesize = 0
            unfold getpagesize
            unfold getpagesize at e2
            omega
          · simp
          · intro _ _ x hx
            rcases List.mem_cons.mp hx with hx | hx
            · subst hx; simp
            · have hx2 := List.mem_singleton.mp hx
              subst hx2
              exact ALIGN_65536_mod_4096 _
      · split at h
        · -- 4_TILED_MTL_RC_CCS
          cases h
          refine ⟨?_, ?_, ?_⟩
          · have e1 := ALIGN_65536_mod_4096
              (ALIGN (ALIGN (o.stride format width 0) 512) 256 *
                ALIGN (o.height format height 0) 32)
            have e2 := ALIGN_page_mod
              (ALIGN (ALIGN (ALIGN (o.stride format width 0) 512) 256 *
                ALIGN (o.height format height 0) 32) 65536 / 256)
            show (_ + _) % getpagesize = 0
            unfold getpagesize
            unfold getpagesize at e2
            omega
          · simp
          · intro _ _ x hx
            rcases List.mem_cons.mp hx with hx | hx
            · subst hx; simp
            · have hx2 := List.mem_singleton.mp hx
              subst hx2
              exact ALIGN_65536_mod_4096 _
        · -- plain modifiers: i915_bo_from_format
          split at h
          · rename_i ss os zs total heq
            unfold i915_bo_from_format at heq
            split at heq
            · rename_i ss' os' zs' endoff hloop
              simp only [Except.ok.injEq, Prod.mk.injEq] at heq
              obtain ⟨e1, e2, e3, e4⟩ := heq
              subst e1; subst e2; subst e3; subst e4
              cases h
              obtain ⟨hsum, halign⟩ :=
                i915_plane_loop_invariant dev o width height format tiling _ _ _ _ _ _ _ hloop
              refine ⟨ALIGN_page_mod _, ?_, fun _ => halign⟩
              show zs'.sum ≤ ALIGN endoff getpagesize
              have := ALIGN_le endoff getpagesize (by decide)
              omega
            · exact absurd heq (by simp)
          · exact absurd h (by simp)

/-- With compression disabled, the compression override never leaves
`Y_TILED_CCS` in place. -/
theorem compression_false_ne_ccs (modifiers : Option (List Nat)) (m : Nat) :
    i915_compression_override false modifiers m ≠ I915_FORMAT_MOD_Y_TILED_CCS := by
  unfold i915_compression_override
  split
  · split
    · split
      · decide
      · decide
    · decide
  · rename_i hcond
    intro he
    exact hcond ⟨rfl, he⟩

/-- The gen8-ARGB override preserves the property of not being
`Y_TILED_CCS`. -/
theorem gen8_argb_ne_ccs (dev : I915Device) (format m : Nat)
    (hm : m ≠ I915_FORMAT_MOD_Y_TILED_CCS) :
    i915_gen8_argb_override dev format m ≠ I915_FORMAT_MOD_Y_TILED_CCS := by
  unfold i915_gen8_argb_override
  split
  · decide
  · exact hm

/-- A successful layout under one of the three CCS modifiers the planner can
choose (for a format other than the Android YVU shadow format) has two
planes, the auxiliary plane right after the main one, 4 KiB-aligned. -/
theorem i915_layout_ccs_props (dev : I915Device) (o : FormatOracle)
    (width height format modifier tiling : Nat) (meta : BoMeta)
    (hfmt : format ≠ DRM_FORMAT_YVU420_ANDROID)
    (hccs : modifier = I915_FORMAT_MOD_Y_TILED_CCS ∨
      modifier = I915_FORMAT_MOD_Y_TILED_GEN12_RC_CCS ∨
      modifier = I915_FORMAT_MOD_4_TILED_MTL_RC_CCS)
    (h : i915_layout dev o width height format modifier tiling = .ok meta) :
    meta.num_planes = 2 ∧ meta.offsets[1]? = meta.sizes[0]? ∧
      meta.offsets[1]?.getD 1 % 4096 = 0 := by
  rcases hccs with hm | hm | hm <;> subst hm
  · unfold i915_layout at h
    rw [if_neg hfmt, if_pos rfl] at h
    split at h
    · exact absurd h (by simp)
    · rename_i np heq
      have hnp : np = 2 := by
        unfold i915_num_planes_from_modifier at heq
        rw [if_pos (Or.inl rfl)] at heq
        split at heq
        · simpa using heq.symm
        · exact absurd heq (by simp)
      cases h
      refine ⟨hnp, by simp, ?_⟩
      show (some (DIV_ROUND_UP (o.stride format width 0) 128 *
          DIV_ROUND_UP height 32 * 4096)).getD 1 % 4096 = 0
      exact Nat.mul_mod_left
        (DIV_ROUND_UP (o.stride format width 0) 128 * DIV_ROUND_UP height 32) 4096
  · unfold i915_layout at h
    rw [if_neg hfmt, if_neg (by decide), if_pos rfl] at h
    split at h
    · exact absurd h (by simp)
    · rename_i np heq
      have hnp : np = 2 := by
        unfold i915_num_planes_from_modifier at heq
        rw [if_pos (Or.inr (Or.inl rfl))] at heq
        split at heq
        · simpa using heq.symm
        · exact absurd heq (by simp)
      cases h
      refine ⟨hnp, by simp, ?_⟩
      simpa using ALIGN_65536_mod_4096
        ((if dev.is_xelpd = true ∧ 1 < ALIGN (o.stride format width 0) 512 then
            next_pow2_u32 (ALIGN (o.stride format width 0) 512)
          else ALIGN (o.stride format width 0) 512) *
         (if dev.is_xelpd = true ∧ 1 < ALIGN (o.stride format width 0) 512 then
            ALIGN (o.height format (ALIGN (o.height format height 0) 32) 0) 128
          else ALIGN (o.height format height 0) 32))
  · unfold i915_layout at h
    rw [if_neg hfmt, if_neg (by decide), if_neg (by decide), if_pos rfl] at h
    cases h
    refine ⟨rfl, by simp, ?_⟩
    simpa using ALIGN_65536_mod_4096
      (ALIGN (ALIGN (o.stride format width 0) 512) 256 * ALIGN (o.height format height 0) 32)

/-! ## The claims -/

/-- C1 (amended): on `graphics_version < 11` with `width > 4096` and a format
other than NV12/P010, a modifier that is neither X-tiled nor linear is forced
to X-tiled exactly when the client supplied a modifier list containing
X-tiled, and to linear otherwise — in particular, with no client list the
planner always demotes to linear and never consults the generation
preference list. -/
theorem C1_amended : ∀ (dev : I915Device) (width format modifier : Nat)
    (modifiers : Option (List Nat)),
    dev.graphics_version < 11 → 4096 < width →
    format ≠ DRM_FORMAT_NV12 → format ≠ DRM_FORMAT_P010 →
    modifier ≠ I915_FORMAT_MOD_X_TILED → modifier ≠ DRM_FORMAT_MOD_LINEAR →
    i915_huge_bo_override dev width format modifiers modifier =
      (match modifiers with
       | some ms =>
         if I915_FORMAT_MOD_X_TILED ∈ ms then I915_FORMAT_MOD_X_TILED
         else DRM_FORMAT_MOD_LINEAR
       | none => DRM_FORMAT_MOD_LINEAR) := by
  intro dev width format modifier modifiers h1 h2 h3 h4 h5 h6
  unfold i915_huge_bo_override
  rw [if_pos ⟨h1, h2, h3, h4, h5, h6⟩]

/-- C1 witness: the huge-bo override at gen9, ARGB8888, width 5000, no
client list, prior modifier Y-tiled, yields linear. -/
theorem C1_witness :
    i915_huge_bo_override dev9ex 5000 DRM_FORMAT_ARGB8888 none I915_FORMAT_MOD_Y_TILED =
      DRM_FORMAT_MOD_LINEAR :=
  C1_amended dev9ex 5000 DRM_FORMAT_ARGB8888 I915_FORMAT_MOD_Y_TILED none (by decide)
    (by decide) (by decide) (by decide) (by decide) (by decide)

/-- C1 counterexample: the ARGB8888 5000x1000 plan on gen9 with no client
modifier list (registry modifier Y-tiled) yields the linear modifier, not
the X-tiled one, although X-tiled is in the generation preference list. -/
theorem C1_counterexample :
    (i915_bo_compute_metadata dev9ex true drvOracle 5000 1000 DRM_FORMAT_ARGB8888 useFlagsNone
        none (some I915_FORMAT_MOD_Y_TILED)).map (fun m => m.format_modifier) =
      .ok DRM_FORMAT_MOD_LINEAR ∧
      DRM_FORMAT_MOD_LINEAR ≠ I915_FORMAT_MOD_X_TILED ∧
      I915_FORMAT_MOD_X_TILED ∈ i915_get_modifier_order dev9ex :=
  ⟨rfl, by decide, by decide⟩

/-- C2 (amended): on `GEN_VERSION_X10 >= 125` the pre-switch 4x4 alignment
assignment is overwritten by the tiling switch for every one of the four
named tilings; the effective alignments are the per-tiling ones
(NONE: 64x4, X: 512x8, Y: 128x32, TILE4: 128x32), stated here for formats
other than R8 (whose stride is never aligned). -/
theorem C2_amended : ∀ (dev : I915Device) (format stride h : Nat),
    125 ≤ GEN_VERSION_X10 dev → format ≠ DRM_FORMAT_R8 →
    i915_align_dimensions dev format I915_TILING_NONE stride h = (ALIGN stride 64, ALIGN h 4) ∧
      i915_align_dimensions dev format I915_TILING_X stride h = (ALIGN stride 512, ALIGN h 8) ∧
      i915_align_dimensions dev format I915_TILING_Y stride h = (ALIGN stride 128, ALIGN h 32) ∧
      i915_align_dimensions dev format I915_TILING_4 stride h = (ALIGN stride 128, ALIGN h 32) := by
  intro dev format stride h _ hfmt
  refine ⟨?_, ?_, ?_, ?_⟩ <;>
    simp [i915_align_dimensions, hfmt, I915_TILING_NONE, I915_TILING_X, I915_TILING_Y,
      I915_TILING_4]

/-- C2 witness: the amended alignments evaluated on the 12.5 device at
ARGB8888, stride 4, height 4. -/
theorem C2_witness :
    i915_align_dimensions dev125ex DRM_FORMAT_ARGB8888 I915_TILING_NONE 4 4 =
        (ALIGN 4 64, ALIGN 4 4) ∧
      i915_align_dimensions dev125ex DRM_FORMAT_ARGB8888 I915_TILING_X 4 4 =
        (ALIGN 4 512, ALIGN 4 8) ∧
      i915_align_dimensions dev125ex DRM_FORMAT_ARGB8888 I915_TILING_Y 4 4 =
        (ALIGN 4 128, ALIGN 4 32) ∧
      i915_align_dimensions dev125ex DRM_FORMAT_ARGB8888 I915_TILING_4 4 4 =
        (ALIGN 4 128, ALIGN 4 32) :=
  C2_amended dev125ex DRM_FORMAT_ARGB8888 4 4 (by decide) (by decide)

/-- C2 counterexample: on the 12.5 device with X tiling, stride 4 and height
4 are aligned to (512, 8), not to (4, 4) as a 4x4 alignment would give. -/
theorem C2_counterexample :
    i915_align_dimensions dev125ex DRM_FORMAT_ARGB8888 I915_TILING_X 4 4 = (512, 8) ∧
      ((512 : Nat), (8 : Nat)) ≠ (ALIGN 4 4, ALIGN 4 4) :=
  ⟨rfl, by decide⟩

/-- C3 (amended): with the registry reporting compression disabled, no plan
result carries the `Y_TILED_CCS` modifier (the only CCS modifier the
compression-disabled rule downgrades); the other CCS modifiers can still be
returned, as the counterexample shows. -/
theorem C3_amended : ∀ (dev : I915Device) (o : FormatOracle) (width height format : Nat)
    (fl : UseFlags) (modifiers : Option (List Nat)) (combo : Option Nat) (meta : BoMeta),
    i915_bo_compute_metadata dev false o width height format fl modifiers combo = .ok meta →
    meta.format_modifier ≠ I915_FORMAT_MOD_Y_TILED_CCS := by
  intro dev o width height format fl modifiers combo meta hc
  unfold i915_bo_compute_metadata at hc
  split at hc
  · exact absurd hc (by simp)
  · have hmod := i915_layout_modifier _ _ _ _ _ _ _ _ hc
    rw [hmod]
    exact gen8_argb_ne_ccs _ _ _ (compression_false_ne_ccs _ _)

/-- C3 witness: the linear ARGB8888 64x64 plan computed with compression
disabled does not carry `Y_TILED_CCS`. -/
theorem C3_witness : planLinearEx.format_modifier ≠ I915_FORMAT_MOD_Y_TILED_CCS :=
  C3_amended dev12ex drvOracle 64 64 DRM_FORMAT_ARGB8888 useFlagsNone none
    (some DRM_FORMAT_MOD_LINEAR) planLinearEx rfl

/-- C3 counterexample: with compression disabled, a gen12 plan for the
client list `[Y_TILED_GEN12_RC_CCS]` still returns the CCS modifier
`Y_TILED_GEN12_RC_CCS`. -/
theorem C3_counterexample :
    (i915_bo_compute_metadata dev12ex false drvOracle 4 4 DRM_FORMAT_ARGB8888 useFlagsNone
        (some [I915_FORMAT_MOD_Y_TILED_GEN12_RC_CCS]) none).map (fun m => m.format_modifier) =
      .ok I915_FORMAT_MOD_Y_TILED_GEN12_RC_CCS :=
  rfl

/-- C4 (amended): for a linear (tiling NONE) layout of format R8, since the
R8 stride is never aligned, `sizes[0]` is `width * 1` when the requested
height is 1 and `width * ALIGN(height, 4)` when the height is greater than 1
(the result also lists the stride, offset and page-aligned total). -/
theorem C4_amended : ∀ (dev : I915Device) (width height : Nat),
    (height = 1 →
        i915_bo_from_format dev drvOracle width 1 DRM_FORMAT_R8 I915_TILING_NONE =
          .ok ([width], [0], [width], ALIGN width getpagesize)) ∧
      (1 < height →
        i915_bo_from_format dev drvOracle width height DRM_FORMAT_R8 I915_TILING_NONE =
          .ok ([width], [0], [width * ALIGN height 4],
            ALIGN (width * ALIGN height 4) getpagesize)) := by
  intro dev width height
  constructor
  · intro _
    have hnp : drvOracle.num_planes DRM_FORMAT_R8 = 1 := rfl
    simp only [i915_bo_from_format, hnp]
    simp only [i915_plane_loop]
    norm_num [i915_align_dimensions, i915_format_needs_LCU_alignment, drvOracle,
      drv_stride_from_format, drv_height_from_format, DRM_FORMAT_R8, DRM_FORMAT_ARGB8888,
      DRM_FORMAT_ABGR8888, DRM_FORMAT_P010, DRM_FORMAT_P016, DRM_FORMAT_NV12,
      DRM_FORMAT_YVU420_ANDROID, I915_TILING_NONE, ALIGN]
  · intro hh
    have hnp : drvOracle.num_planes DRM_FORMAT_R8 = 1 := rfl
    have hne : height ≠ 1 := by omega
    simp only [i915_bo_from_format, hnp]
    simp only [i915_plane_loop]
    norm_num [i915_align_dimensions, i915_format_needs_LCU_alignment, drvOracle,
      drv_stride_from_format, drv_height_from_format, DRM_FORMAT_R8, DRM_FORMAT_ARGB8888,
      DRM_FORMAT_ABGR8888, DRM_FORMAT_P010, DRM_FORMAT_P016, DRM_FORMAT_NV12,
      DRM_FORMAT_YVU420_ANDROID, I915_TILING_NONE, hne]

/-- C4 counterexample: the linear R8 layout at width 100, height 1 has
`sizes[0] = 100`, not `ALIGN(100, 64) * 1 = 128`: the R8 stride is never
aligned to 64. -/
theorem C4_counterexample :
    i915_bo_from_format dev9ex drvOracle 100 1 DRM_FORMAT_R8 I915_TILING_NONE =
        .ok ([100], [0], [100], 4096) ∧
      (100 : Nat) ≠ ALIGN 100 64 * 1 :=
  ⟨rfl, by decide⟩

/-- C5 (confirmed): with a client-supplied candidate list, the planner
returns the modifier ranked highest in the generation preference list among
those present in the client list (there are `pre`/`post` such that the
generation list splits at the chosen modifier and nothing before it is in
the client list), and when the two lists are disjoint both the selection
step and the whole planner fail with the invalid-argument condition. -/
theorem C5_confirmed : ∀ (dev : I915Device) (ms : List Nat) (combo : Option Nat),
    ((∀ m ∈ i915_get_modifier_order dev, m ∉ ms) →
        i915_select_modifier dev (some ms) combo = .error .invalidArgument ∧
          ∀ (compression : Bool) (o : FormatOracle) (w h fmt : Nat) (fl : UseFlags),
            i915_bo_compute_metadata dev compression o w h fmt fl (some ms) combo =
              .error .invalidArgument) ∧
      ∀ m : Nat, i915_select_modifier dev (some ms) combo = .ok m →
        m ∈ ms ∧ ∃ pre post, i915_get_modifier_order dev = pre ++ m :: post ∧
          ∀ x ∈ pre, x ∉ ms := by
  intro dev ms combo
  constructor
  · intro hdisj
    have hnone : drv_pick_modifier ms (i915_get_modifier_order dev) = none := by
      apply list_find_none
      intro x hx
      exact decide_eq_false (hdisj x hx)
    have hsel : i915_select_modifier dev (some ms) combo = .error .invalidArgument := by
      simp only [i915_select_modifier, hnone]
    refine ⟨hsel, ?_⟩
    intro compression o w h fmt fl
    unfold i915_bo_compute_metadata
    rw [hsel]
  · intro m hsel
    simp only [i915_select_modifier] at hsel
    rcases hfind : drv_pick_modifier ms (i915_get_modifier_order dev) with _ | m'
    · rw [hfind] at hsel
      exact absurd hsel (by simp)
    · rw [hfind] at hsel
      have hm : m' = m := by simpa using hsel
      subst hm
      obtain ⟨hp, pre, post, heq2, hpre⟩ := list_find_first _ _ hfind
      exact ⟨of_decide_eq_true hp, pre, post, heq2,
        fun x hx => of_decide_eq_false (hpre x hx)⟩

/-- C6 (amended): the map operation refuses, before any kernel transaction,
exactly the three CCS modifiers its guard tests — `Y_TILED_CCS`,
`Y_TILED_GEN12_RC_CCS` and `4_TILED_MTL_RC_CCS`; the `Yf_TILED_CCS` variant
is not refused, as the counterexample shows. -/
theorem C6_amended : ∀ (dev : I915Device) (tiling : Nat) (f : UseFlags) (m : Nat),
    (m = I915_FORMAT_MOD_Y_TILED_CCS ∨ m = I915_FORMAT_MOD_Y_TILED_GEN12_RC_CCS ∨
      m = I915_FORMAT_MOD_4_TILED_MTL_RC_CCS) →
    i915_bo_map_path dev m tiling f = none := by
  intro dev tiling f m hm
  unfold i915_bo_map_path
  rw [if_pos hm]

/-- C6 witness: a `Y_TILED_CCS` buffer is refused by the map guard. -/
theorem C6_witness :
    i915_bo_map_path dev12ex I915_FORMAT_MOD_Y_TILED_CCS I915_TILING_Y useFlagsNone = none :=
  C6_amended dev12ex I915_TILING_Y useFlagsNone I915_FORMAT_MOD_Y_TILED_CCS (Or.inl rfl)

/-- C6 counterexample: a buffer with the CCS variant `Yf_TILED_CCS` is not
refused — the map operation proceeds to an mmap-offset transaction instead
of returning the mapping-failure sentinel. -/
theorem C6_counterexample :
    i915_bo_map_path dev12ex I915_FORMAT_MOD_Yf_TILED_CCS I915_TILING_Y useFlagsNone =
      some (MapPath.mmap_offset I915_MMAP_OFFSET_WB) :=
  rfl

/-- C7 (amended): every successful plan has a page-aligned total size at
least the sum of the plane sizes; and for every plan whose format is not the
Android YVU shadow format, every plane offset of a non-linear plan is
page-aligned.  The YVU420_ANDROID branch keeps the modifier-derived tiling
but lays its planes consecutively through the generic helper, so a
non-linear YVU420_ANDROID plan can carry unaligned offsets, as the
counterexample shows. -/
theorem C7_amended : ∀ (dev : I915Device) (compression : Bool) (o : FormatOracle)
    (width height format : Nat) (fl : UseFlags) (modifiers : Option (List Nat))
    (combo : Option Nat) (meta : BoMeta),
    i915_bo_compute_metadata dev compression o width height format fl modifiers combo =
      .ok meta →
    meta.total_size % getpagesize = 0 ∧ meta.sizes.sum ≤ meta.total_size ∧
      (format ≠ DRM_FORMAT_YVU420_ANDROID → meta.tiling ≠ I915_TILING_NONE →
        ∀ x ∈ meta.offsets, x % getpagesize = 0) := by
  intro dev compression o width height format fl modifiers combo meta hc
  unfold i915_bo_compute_metadata at hc
  split at hc
  · exact absurd hc (by simp)
  · exact i915_layout_invariants _ _ _ _ _ _ _ _ hc

/-- C7 witness: the invariants evaluated on the X-tiled gen12 ARGB8888 64x64
plan. -/
theorem C7_witness :
    planXEx.total_size % getpagesize = 0 ∧ planXEx.sizes.sum ≤ planXEx.total_size ∧
      (DRM_FORMAT_ARGB8888 ≠ DRM_FORMAT_YVU420_ANDROID →
        planXEx.tiling ≠ I915_TILING_NONE → ∀ x ∈ planXEx.offsets, x % getpagesize = 0) :=
  C7_amended dev12ex true drvOracle 64 64 DRM_FORMAT_ARGB8888 useFlagsNone
    (some [I915_FORMAT_MOD_X_TILED]) none planXEx rfl

/-- C7 counterexample: the YVU420_ANDROID 640x480 plan with client list
`[Y_TILED_CCS]` on gen9 succeeds with the Y tiling kept from the modifier
switch, yet its plane-2 offset 384000 is not a multiple of the 4096 page
size. -/
theorem C7_counterexample :
    (i915_bo_compute_metadata dev9ex true drvOracle 640 480 DRM_FORMAT_YVU420_ANDROID
        useFlagsNone (some [I915_FORMAT_MOD_Y_TILED_CCS]) none).map
        (fun m => (m.tiling, m.offsets)) =
      .ok (I915_TILING_Y, [0, 307200, 384000]) ∧
      I915_TILING_Y ≠ I915_TILING_NONE ∧
      (384000 : Nat) % getpagesize ≠ 0 :=
  ⟨rfl, by decide, by decide⟩

/-- C8 (amended): every successful plan whose format is not the Android YVU
shadow format and whose chosen modifier is one of the three CCS modifiers
the planner can produce has two planes, `offsets[1] = sizes[0]`, and
`offsets[1]` a multiple of 4096; for the YVU shadow format the CCS layout
branch is bypassed, as the counterexample shows. -/
theorem C8_amended : ∀ (dev : I915Device) (compression : Bool) (o : FormatOracle)
    (width height format : Nat) (fl : UseFlags) (modifiers : Option (List Nat))
    (combo : Option Nat) (meta : BoMeta),
    i915_bo_compute_metadata dev compression o width height format fl modifiers combo =
      .ok meta →
    (meta.format_modifier = I915_FORMAT_MOD_Y_TILED_CCS ∨
      meta.format_modifier = I915_FORMAT_MOD_Y_TILED_GEN12_RC_CCS ∨
      meta.format_modifier = I915_FORMAT_MOD_4_TILED_MTL_RC_CCS) →
    format ≠ DRM_FORMAT_YVU420_ANDROID →
    meta.num_planes = 2 ∧ meta.offsets[1]? = meta.sizes[0]? ∧
      meta.offsets[1]?.getD 1 % 4096 = 0 := by
  intro dev compression o width height format fl modifiers combo meta hc hccs hfmt
  unfold i915_bo_compute_metadata at hc
  split at hc
  · exact absurd hc (by simp)
  · have hmod := i915_layout_modifier _ _ _ _ _ _ _ _ hc
    rw [hmod] at hccs
    exact i915_layout_ccs_props _ _ _ _ _ _ _ _ hfmt hccs hc

/-- C8 witness: the CCS properties evaluated on the Y-tiled-CCS gen9
ARGB8888 64x64 plan. -/
theorem C8_witness :
    planCcsEx.num_planes = 2 ∧ planCcsEx.offsets[1]? = planCcsEx.sizes[0]? ∧
      planCcsEx.offsets[1]?.getD 1 % 4096 = 0 :=
  C8_amended dev9ex true drvOracle 64 64 DRM_FORMAT_ARGB8888 useFlagsNone
    (some [I915_FORMAT_MOD_Y_TILED_CCS]) none planCcsEx rfl (Or.inl rfl) (by decide)

/-- C8 counterexample: a successful plan for the Android YVU shadow format
with the client list `[Y_TILED_CCS]` carries the CCS modifier but has three
planes, not two. -/
theorem C8_counterexample :
    (i915_bo_compute_metadata dev9ex true drvOracle 640 480 DRM_FORMAT_YVU420_ANDROID
        useFlagsNone (some [I915_FORMAT_MOD_Y_TILED_CCS]) none).map
        (fun m => (m.format_modifier, m.num_planes)) =
      .ok (I915_FORMAT_MOD_Y_TILED_CCS, 3) ∧
      (3 : Nat) ≠ 2 :=
  ⟨rfl, by decide⟩

/-- C9 (confirmed): whenever any software read/write flag is set, or the
device has no local memory, the allocator takes the plain create ioctl with
the exact total size — no create-extension and no vram region. -/
theorem C9_confirmed : ∀ (dev : I915Device) (is_prelim : Bool) (f : UseFlags)
    (total_size : Nat),
    (f.sw_read_often = true ∨ f.sw_read_rarely = true ∨ f.sw_write_often = true ∨
      f.sw_write_rarely = true ∨ dev.has_local_mem = false) →
    i915_bo_create_path dev is_prelim f total_size = .gem_create total_size := by
  intro dev is_prelim f total hsw
  unfold i915_bo_create_path
  rw [if_neg]
  intro hcontr
  rw [Bool.and_eq_true] at hcontr
  obtain ⟨h1, h2⟩ := hcontr
  unfold is_need_local at h1
  rcases hsw with hs | hs | hs | hs | hs
  · rw [hs] at h1; simp at h1
  · rw [hs] at h1; simp at h1
  · rw [hs] at h1; simp at h1
  · rw [hs] at h1; simp at h1
  · rw [hs] at h2; exact absurd h2 (by simp)

/-- C9 witness: a buffer with frequent software reads on a local-memory
device goes to the plain create ioctl with the exact total size. -/
theorem C9_witness :
    i915_bo_create_path devLocalEx true useFlagsSwRead 12345 = .gem_create 12345 :=
  C9_confirmed devLocalEx true useFlagsSwRead 12345 (Or.inl rfl)

/-- C10 (confirmed): `i915_num_planes_from_modifier` returns two planes for
the three CCS modifiers when the format's default plane count is one, its
assertion fails for NV12 (default count two) with a CCS modifier, and for
every non-CCS modifier it returns the format's default plane count. -/
theorem C10_confirmed :
    (∀ (o : FormatOracle) (format modifier : Nat),
        (modifier = I915_FORMAT_MOD_Y_TILED_CCS ∨
          modifier = I915_FORMAT_MOD_Y_TILED_GEN12_RC_CCS ∨
          modifier = I915_FORMAT_MOD_4_TILED_MTL_RC_CCS) →
        o.num_planes format = 1 →
        i915_num_planes_from_modifier o format modifier = some 2) ∧
      i915_num_planes_from_modifier drvOracle DRM_FORMAT_NV12 I915_FORMAT_MOD_Y_TILED_CCS =
        none ∧
      ∀ (o : FormatOracle) (format modifier : Nat),
        modifier ≠ I915_FORMAT_MOD_Y_TILED_CCS →
        modifier ≠ I915_FORMAT_MOD_Y_TILED_GEN12_RC_CCS →
        modifier ≠ I915_FORMAT_MOD_4_TILED_MTL_RC_CCS →
        i915_num_planes_from_modifier o format modifier = some (o.num_planes format) := by
  refine ⟨?_, by decide, ?_⟩
  · intro o format modifier hccs hnp
    simp only [i915_num_planes_from_modifier]
    rw [if_pos hccs, hnp]
    simp
  · intro o format modifier h1 h2 h3
    simp only [i915_num_planes_from_modifier]
    rw [if_neg (by simp only [not_or]; exact ⟨h1, h2, h3⟩)]

end I915
